import Mathlib

/-!
Verification of the command-line database assistant (`app.py`) against its
natural-language specification.

The program is a single Python file. Its pure orchestration logic is embedded
shallowly below: string-processing functions become Lean functions; external
effects (database fetches, LLM calls, file reads, printing, process exit) are
made explicit as parameters and returned data.

Python string primitives are embedded as structurally recursive functions on
the character list of a `String`, mirroring CPython semantics:
`str.split('\n')` keeps empty pieces and returns `[""]` on the empty string;
`str.strip()` removes leading and trailing whitespace; `str.startswith` is a
prefix test; `str.lower()` maps characters to lower case; slicing `s[6:]`
drops six characters; `'\n'.join` interleaves newlines.
-/

/-- Python `s.split('\n')`, accumulator form: `acc` holds the (reversed)
characters of the current piece. -/
def pySplitAux : List Char → List Char → List String
  | [], acc => [String.mk acc.reverse]
  | c :: cs, acc =>
    if c = '\n' then String.mk acc.reverse :: pySplitAux cs []
    else pySplitAux cs (c :: acc)

/-- Python `s.split('\n')`. -/
def pySplit (s : String) : List String := pySplitAux s.data []

/-- Python `s.strip()` (whitespace here: space, tab, carriage return,
line feed). -/
def pyStrip (s : String) : String :=
  String.mk (((s.data.dropWhile Char.isWhitespace).reverse.dropWhile
    Char.isWhitespace).reverse)

/-- Python `s.startswith(p)`. -/
def pyStartsWith (s p : String) : Bool := p.data.isPrefixOf s.data

/-- Python `s.lower()`. -/
def pyLower (s : String) : String := String.mk (s.data.map Char.toLower)

/-- Python `s[n:]` (character-based slicing). -/
def pyDrop (s : String) (n : Nat) : String := String.mk (s.data.drop n)

/-- Python `'\n'.join(lines)`. -/
def pyJoin : List String → String
  | [] => ""
  | [l] => l
  | l :: ls => l ++ "\n" ++ pyJoin ls

/-- A fence line: Python `line.strip().startswith('```')` in
`generate_sql_query` (app.py line 139). -/
def isFence (l : String) : Bool := pyStartsWith (pyStrip l) "```"

/-- The scanning loop of `generate_sql_query` (app.py lines 137-146),
building `query_lines`.  The `Bool` argument is the `in_query` flag: lines
before the first fence line are skipped; after it, lines are collected until
the next fence line (`break`) or the end of input. -/
def collectQueryLines : List String → Bool → List String
  | [], _ => []
  | l :: ls, inq =>
    if isFence l then
      if inq then []
      else collectQueryLines ls true
    else
      if inq then l :: collectQueryLines ls true
      else collectQueryLines ls false

/-- The SQL extraction step of `generate_sql_query` (app.py lines 134-153):
split the response into lines, run the fence-scanning loop; if it collected
at least one line (`if query_lines:`), join and strip them, otherwise fall
back to the first five lines of the response, joined and stripped. -/
def extract_sql (response : String) : String :=
  if (collectQueryLines (pySplit response) false).isEmpty then
    pyStrip (pyJoin ((pySplit response).take 5))
  else
    pyStrip (pyJoin (collectQueryLines (pySplit response) false))

/-- Reference extraction, following the specification's words: the first
fenced code block is the run of lines strictly between the first two lines
whose trimmed content starts with a triple-backtick fence marker. -/
def fencedBlockRef (lines : List String) : Option (List String) :=
  match lines.dropWhile (fun l => !isFence l) with
  | [] => none
  | _ :: rest =>
    if rest.any isFence then some (rest.takeWhile (fun l => !isFence l))
    else none

/-- Reference extraction, following the specification's words: content of the
first fenced code block, trimmed; with no fenced code block, the first five
lines joined and trimmed. -/
def extract_sql_ref (response : String) : String :=
  match fencedBlockRef (pySplit response) with
  | some block => pyStrip (pyJoin block)
  | none => pyStrip (pyJoin ((pySplit response).take 5))

/-- Amended reference: the fence-delimited region is the run of non-fence
lines after the first fence line, extending to the end of input when the
fence is never closed; it counts only when non-empty. -/
def fencedBlockAmended (lines : List String) : Option (List String) :=
  match lines.dropWhile (fun l => !isFence l) with
  | [] => none
  | _ :: rest =>
    let body := rest.takeWhile (fun l => !isFence l)
    if body.isEmpty then none else some body

/-- Amended reference extraction: the (non-empty, possibly unclosed) fenced
region joined and trimmed, else the first five lines joined and trimmed. -/
def extract_sql_amendedRef (response : String) : String :=
  match fencedBlockAmended (pySplit response) with
  | some block => pyStrip (pyJoin block)
  | none => pyStrip (pyJoin ((pySplit response).take 5))

/-- The command variants of the interactive loop and the spec's data model. -/
inductive Command where
  | explore : Command
  | exit : Command
  | file : Command
  | query : String → Command
  | modelAnalysis : String → Command
  | direct : String → Command
deriving DecidableEq

/-- Classification performed by the interactive loop's `if`/`elif` chain
(app.py lines 243-257): `exit`, `explore` and `file` are compared with `==`
against the lowered input; `query:` and `model:` are `startswith` tests on
the lowered input, and the question is the original input with the first six
characters dropped, stripped. -/
def classify (user_input : String) : Command :=
  if pyLower user_input = "exit" then .exit
  else if pyLower user_input = "explore" then .explore
  else if pyLower user_input = "file" then .file
  else if pyStartsWith (pyLower user_input) "query:" then
    .query (pyStrip (pyDrop user_input 6))
  else if pyStartsWith (pyLower user_input) "model:" then
    .modelAnalysis (pyStrip (pyDrop user_input 6))
  else .direct user_input

/-- The section header concatenated by `get_detailed_schema_info`
(app.py line 59). -/
def fkHeader : String := "\n\nForeign key relationships:\n"

/-- `get_detailed_schema_info` (app.py lines 32-63), with the two external
database interactions made explicit: `base_info` is the result of
`db.get_table_info()` and `fk_result` the outcome of `db.run(fk_query)`
(`.error` when the Python call raises; that branch prints a warning and
returns the base info alone). -/
def get_detailed_schema_info (base_info : String)
    (fk_result : Except String String) : String :=
  match fk_result with
  | .ok fk_info => base_info ++ fkHeader ++ fk_info
  | .error _ => base_info

/-- `pat` occurs as a contiguous substring of the character list. -/
def occursIn (pat : List Char) : List Char → Bool
  | [] => pat.isEmpty
  | c :: cs => pat.isPrefixOf (c :: cs) || occursIn pat cs

/-- Substring containment on strings. -/
def strContains (s pat : String) : Bool := occursIn pat.data s.data

/-- The database as seen by the accessor: an oracle giving, for the i-th
fetch, the table info and the foreign-key query outcome, plus a count of
fetches performed so far. -/
structure Db where
  baseInfoAt : Nat → String
  fkResultAt : Nat → Except String String
  fetchCount : Nat

/-- One call of `get_detailed_schema_info` against the database: it performs
a fresh fetch (there is no cache inside the function) and returns the
assembled text together with the advanced database state. -/
def get_detailed_schema_info_run (db : Db) : String × Db :=
  (get_detailed_schema_info (db.baseInfoAt db.fetchCount)
      (db.fkResultAt db.fetchCount),
   { db with fetchCount := db.fetchCount + 1 })

/-- The process state after module initialization: `schema_info` is the
module-level global assigned once at app.py line 66. -/
structure AppState where
  schema_info : String
  db : Db

/-- Module initialization: `schema_info = get_detailed_schema_info()`
(app.py line 66), a single call whose result is stored. -/
def startupSchema (db : Db) : AppState :=
  let r := get_detailed_schema_info_run db
  { schema_info := r.1, db := r.2 }

/-- Reading the `schema_info` global (as the three prompt builders do at
app.py lines 73, 95 and 122): a pure read that touches no external state. -/
def read_schema_info (st : AppState) : String × AppState := (st.schema_info, st)

/-- What the tail of `generate_sql_query` produces: the lines it prints and
the value it returns. -/
structure ExecOutcome where
  printed : List String
  returned : String
deriving DecidableEq

/-- The execution phase of `generate_sql_query` (app.py lines 155-167):
print the generated SQL, run it (`db_result` is the outcome of
`db.run(sql_query)`; `.error e` when the call raises with textual
description `e`); on success print result and full explanation and return
the result; on failure print the error and the full response and return an
error-tagged string. -/
def run_generated_sql (sql_query response : String)
    (db_result : Except String String) : ExecOutcome :=
  match db_result with
  | .ok result =>
    { printed := ["\nGenerated SQL: " ++ sql_query ++ "\n",
                  "Result: " ++ result, "\nFull explanation:", response],
      returned := result }
  | .error e =>
    { printed := ["\nGenerated SQL: " ++ sql_query ++ "\n",
                  "Error executing SQL: " ++ e, "\nFull response:", response],
      returned := "Error: " ++ e }

/-- Outcome of opening `./question.md`: found with its contents, absent, or
failing with some other I/O error. -/
inductive FileOutcome where
  | found : String → FileOutcome
  | notFound : FileOutcome
  | otherError : String → FileOutcome

/-- `read_markdown_question` (app.py lines 184-194).  `.ok (some q)` is a
normal return of the stripped contents; `.ok none` is the generic-exception
branch, which prints a message and returns `None`; `.error msg` is the
`FileNotFoundError` branch, which raises `ValueError(msg)` — an exception
that leaves the function. -/
def read_markdown_question (f : FileOutcome) : Except String (Option String) :=
  match f with
  | .found content => .ok (some (pyStrip content))
  | .notFound => .error "Error: File ./question.md not found."
  | .otherError _ => .ok none

/-- Classification of the file question inside `process_markdown_mode`
(app.py lines 202-211): `query:` / `model:` case-insensitive prefixes, else
a direct question. -/
def classify_file_question (q : String) : Command :=
  if pyStartsWith (pyLower q) "query:" then .query (pyStrip (pyDrop q 6))
  else if pyStartsWith (pyLower q) "model:" then
    .modelAnalysis (pyStrip (pyDrop q 6))
  else .direct q

/-- `process_markdown_mode` (app.py lines 196-213): the call to
`read_markdown_question` is not wrapped in any `try`, so its `ValueError`
propagates (`.error`); a `None` or empty question prints "No question found"
(`.ok none`); otherwise the question is classified and dispatched
(`.ok (some command)`). -/
def process_markdown_mode (f : FileOutcome) : Except String (Option Command) :=
  match read_markdown_question f with
  | .error e => .error e
  | .ok none => .ok none
  | .ok (some q) =>
    if q = "" then .ok none else .ok (some (classify_file_question q))

/-- Fate of one iteration of the interactive loop. -/
inductive LoopResult where
  | next : LoopResult
  | quit : LoopResult
  | crashed : String → LoopResult
deriving DecidableEq

/-- The `file` branch of the interactive loop (app.py line 247-248):
`process_markdown_mode()` is called with no surrounding `try`, so an
exception escaping it escapes the `while True` loop and terminates the
process; otherwise the loop proceeds to the next prompt. -/
def loop_step_file (f : FileOutcome) : LoopResult :=
  match process_markdown_mode f with
  | .error e => .crashed e
  | .ok _ => .next

/-- Exit behaviour of program startup. -/
structure StartupResult where
  exitCode : Option Nat
  networkCallsBeforeExit : Nat
deriving DecidableEq

/-- Startup control flow as a function of the two credentials (`none` =
variable unset).  `DB_URI` is checked at app.py lines 11-14: when missing
(or empty, Python falsiness) a `ValueError` is raised at import time, which
CPython turns into termination with exit code 1, before `SQLDatabase.from_uri`
(line 17) or the schema fetch (line 66) — zero network interactions.  With
`DB_URI` present, the database is connected and the schema fetched (two
network interactions) before `__main__` checks `ANTHROPIC_API_KEY`
(lines 218-221) and calls `sys.exit(1)` when it is missing. -/
def startup_check (dbUri apiKey : Option String) : StartupResult :=
  if dbUri.getD "" = "" then
    { exitCode := some 1, networkCallsBeforeExit := 0 }
  else if apiKey.getD "" = "" then
    { exitCode := some 1, networkCallsBeforeExit := 2 }
  else
    { exitCode := none, networkCallsBeforeExit := 2 }

/-! ### Helper lemmas about the fence-scanning loop -/

/-- With the `in_query` flag set, the loop collects exactly the longest run
of non-fence lines. -/
theorem collectQueryLines_true_eq (ls : List String) :
    collectQueryLines ls true = ls.takeWhile (fun l => !isFence l) := by
  induction ls with
  | nil => rfl
  | cons l ls ih =>
    cases h : isFence l with
    | false => simp [collectQueryLines, h, List.takeWhile_cons, ih]
    | true => simp [collectQueryLines, h, List.takeWhile_cons]

/-- Starting outside a block, the loop yields the run of non-fence lines
that follows the first fence line (empty when there is no fence line). -/
theorem collectQueryLines_false_eq (ls : List String) :
    collectQueryLines ls false =
      (match ls.dropWhile (fun l => !isFence l) with
       | [] => []
       | _ :: rest => rest.takeWhile (fun l => !isFence l)) := by
  induction ls with
  | nil => rfl
  | cons l ls ih =>
    cases h : isFence l with
    | false => simp [collectQueryLines, h, List.dropWhile_cons, ih]
    | true => simp [collectQueryLines, h, List.dropWhile_cons,
        collectQueryLines_true_eq]

/-- A list with no fence line is untouched by `takeWhile`. -/
theorem takeWhile_nonfence_eq_self (ls : List String)
    (h : ∀ l ∈ ls, isFence l = false) :
    ls.takeWhile (fun l => !isFence l) = ls := by
  induction ls with
  | nil => rfl
  | cons l ls ih =>
    have h1 : isFence l = false := h l (by simp)
    simp only [List.takeWhile_cons, h1, Bool.not_false, if_pos]
    exact congrArg (l :: ·) (ih fun x hx => h x (by simp [hx]))

/-- Dropping the fence-free part reveals the first fence line. -/
theorem dropWhile_nonfence_append (pre : List String) (f : String)
    (post : List String) (hpre : ∀ l ∈ pre, isFence l = false)
    (hf : isFence f = true) :
    (pre ++ f :: post).dropWhile (fun l => !isFence l) = f :: post := by
  induction pre with
  | nil => simp [List.dropWhile_cons, hf]
  | cons p pre ih =>
    have h1 : isFence p = false := hpre p (by simp)
    simp only [List.cons_append, List.dropWhile_cons, h1, Bool.not_false,
      if_pos]
    exact ih fun x hx => hpre x (by simp [hx])

/-- The amended reference block is the loop's collection when non-empty. -/
theorem fencedBlockAmended_eq_collect (lines : List String) :
    fencedBlockAmended lines =
      (if (collectQueryLines lines false).isEmpty then none
       else some (collectQueryLines lines false)) := by
  unfold fencedBlockAmended
  rw [collectQueryLines_false_eq]
  cases h : lines.dropWhile (fun l => !isFence l) with
  | nil => simp
  | cons f rest => simp

/-- Splitting a newline-free character list is a single piece. -/
theorem pySplitAux_no_newline (cs : List Char) (acc : List Char)
    (h : '\n' ∉ cs) :
    pySplitAux cs acc = [String.mk (acc.reverse ++ cs)] := by
  induction cs generalizing acc with
  | nil => simp [pySplitAux]
  | cons c cs ih =>
    have hc : ¬(c = '\n') := fun hh => h (by simp [hh])
    have h' : '\n' ∉ cs := fun hh => h (by simp [hh])
    simp [pySplitAux, hc, ih (c :: acc) h']

/-- A newline-free string is its own single line. -/
theorem pySplit_no_newline (s : String) (h : '\n' ∉ s.data) :
    pySplit s = [s] := by
  unfold pySplit
  rw [pySplitAux_no_newline s.data [] h]
  rcases s with ⟨d⟩
  simp

/-! ### Claims -/

/-- Claim C1, counterexample.  The claim is false at the spec's own example:
on the single-line input `"Sure! ```SELECT 1;```"` the extraction step does
not return `"SELECT 1;"` (fence markers are recognized only at the start of
a line); moreover the extraction can return the empty string on a non-empty
input, namely when the first fenced block holds only whitespace. -/
theorem extract_sql_claim_example_false :
    extract_sql "Sure! ```SELECT 1;```" ≠ "SELECT 1;" ∧
    ("```\n   \n```" ≠ "" ∧ extract_sql "```\n   \n```" = "") := by
  decide

/-- Claim C1 (corrected): the SQL extraction step of `generate_sql_query`
never fails, but its result can be empty for a non-empty response; on a
one-line response that is not itself a fence line — in particular the spec's
example `"Sure! ```SELECT 1;```"` — it returns the whole input trimmed, not
the inline-fenced fragment. -/
theorem extract_sql_total_single_line :
    (∀ s : String, '\n' ∉ s.data → isFence s = false →
      extract_sql s = pyStrip s) ∧
    extract_sql "Sure! ```SELECT 1;```" = "Sure! ```SELECT 1;```" := by
  constructor
  · intro s hnl hf
    unfold extract_sql
    rw [pySplit_no_newline s hnl]
    simp [collectQueryLines, hf, pyJoin]
  · decide

/-- Claim C1, witness for the corrected theorem at a concrete input. -/
theorem extract_sql_total_single_line_witness :
    extract_sql "hello world" = pyStrip "hello world" :=
  extract_sql_total_single_line.1 "hello world" (by decide) (by decide)

/-- Claim C2 (code bug): with `./question.md` absent, the
`FileNotFoundError` branch of `read_markdown_question` raises
`ValueError("Error: File ./question.md not found.")`; `process_markdown_mode`
has no handler, so the exception escapes that dispatch, and in the
interactive loop the `file` branch lets it escape the `while True` loop,
terminating the process instead of continuing. -/
theorem missing_question_file_crashes :
    process_markdown_mode FileOutcome.notFound =
      Except.error "Error: File ./question.md not found." ∧
    loop_step_file FileOutcome.notFound =
      LoopResult.crashed "Error: File ./question.md not found." :=
  ⟨rfl, rfl⟩

/-- Claim C3, counterexample.  On a response whose first fenced block is
empty (two adjacent fence lines), the code falls back to the first five
lines while the reference definition returns the empty block content. -/
theorem extract_sql_reference_mismatch :
    extract_sql "```\n```\nX" ≠ extract_sql_ref "```\n```\nX" := by
  decide

/-- Claim C3 (corrected): for every response, the extracted SQL equals the
amended reference: the run of non-fence lines after the first fence line
(extending to the end of input when the fence is unclosed), joined and
trimmed, provided that run is non-empty; otherwise — no fence line, or
nothing between the first fence line and the next fence line or the end of
input — the first five lines joined and trimmed. -/
theorem extract_sql_matches_amended_reference (s : String) :
    extract_sql s = extract_sql_amendedRef s := by
  unfold extract_sql extract_sql_amendedRef
  rw [fencedBlockAmended_eq_collect]
  cases h : (collectQueryLines (pySplit s) false).isEmpty <;> simp [h]

/-- Claim C4, counterexample.  `"exit now"` lowercases to a string beginning
with the keyword `exit`, yet it is classified as a direct question: the
three keyword commands are recognized by whole-line equality, not by a
prefix test. -/
theorem classify_keyword_cex :
    pyStartsWith (pyLower "exit now") "exit" = true ∧
    classify "exit now" ≠ Command.exit := by
  decide

/-- Claim C4 (corrected): an input whose lowercased form is exactly
`explore` (respectively `exit`, `file`) is classified as the Explore
(respectively Exit, File) command; recognition of these three keywords is a
case-insensitive whole-line match that takes priority over treating the
input as a direct question. -/
theorem classify_keyword_exact :
    (∀ s, pyLower s = "explore" → classify s = Command.explore) ∧
    (∀ s, pyLower s = "exit" → classify s = Command.exit) ∧
    (∀ s, pyLower s = "file" → classify s = Command.file) := by
  refine ⟨fun s h => ?_, fun s h => ?_, fun s h => ?_⟩ <;> unfold classify <;>
    rw [h]
  · rw [if_neg (by decide), if_pos rfl]
  · rw [if_pos rfl]
  · rw [if_neg (by decide), if_neg (by decide), if_pos rfl]

/-- Claim C4, witness for the corrected theorem at concrete inputs. -/
theorem classify_keyword_exact_witness :
    classify "EXPLORE" = Command.explore ∧
    classify "Exit" = Command.exit ∧
    classify "FILE" = Command.file :=
  ⟨classify_keyword_exact.1 "EXPLORE" (by decide),
   classify_keyword_exact.2.1 "Exit" (by decide),
   classify_keyword_exact.2.2 "FILE" (by decide)⟩

/-- Claim C5 (confirmed): when the foreign-key sub-query raises,
`get_detailed_schema_info` returns exactly the base table info — hence a
string containing it that adds no "Foreign key relationships:" section
(provided the base info itself does not contain that header) — and, being a
total function of the caught outcome, lets no exception escape; when the
sub-query succeeds it returns the base info concatenated with the header
and the foreign-key listing. -/
theorem get_detailed_schema_info_degrades (base e fk : String)
    (hbase : strContains base "Foreign key relationships:" = false) :
    (get_detailed_schema_info base (Except.error e) = base ∧
     strContains (get_detailed_schema_info base (Except.error e))
       "Foreign key relationships:" = false) ∧
    get_detailed_schema_info base (Except.ok fk) = base ++ fkHeader ++ fk :=
  ⟨⟨rfl, hbase⟩, rfl⟩

/-- Claim C5, witness at a concrete schema. -/
theorem get_detailed_schema_info_degrades_witness :
    (get_detailed_schema_info "CREATE TABLE t (id int)"
        (Except.error "permission denied") = "CREATE TABLE t (id int)" ∧
     strContains
       (get_detailed_schema_info "CREATE TABLE t (id int)"
         (Except.error "permission denied"))
       "Foreign key relationships:" = false) ∧
    get_detailed_schema_info "CREATE TABLE t (id int)"
        (Except.ok "t.id references u.id") =
      "CREATE TABLE t (id int)" ++ fkHeader ++ "t.id references u.id" :=
  get_detailed_schema_info_degrades "CREATE TABLE t (id int)"
    "permission denied" "t.id references u.id" (by decide)

/-- Claim C6 (confirmed): for every extracted SQL string, when execution
raises with textual description `e`, `generate_sql_query` returns the
error-tagged string `"Error: " ++ e` (no exception propagates) and prints
both the error and the full original model response; when execution
succeeds it prints and returns the textual result set. -/
theorem run_generated_sql_boundary (sql response e result : String) :
    ((run_generated_sql sql response (Except.error e)).returned =
        "Error: " ++ e ∧
      ("Error executing SQL: " ++ e) ∈
        (run_generated_sql sql response (Except.error e)).printed ∧
      response ∈ (run_generated_sql sql response (Except.error e)).printed) ∧
    ((run_generated_sql sql response (Except.ok result)).returned = result ∧
      ("Result: " ++ result) ∈
        (run_generated_sql sql response (Except.ok result)).printed) := by
  refine ⟨⟨rfl, ?_, ?_⟩, rfl, ?_⟩ <;> simp [run_generated_sql]

/-- A database whose table info changes between the first and the second
fetch. -/
def db0 : Db :=
  { baseInfoAt := fun i => if i = 0 then "table info v1" else "table info v2",
    fkResultAt := fun _ => Except.error "fk unavailable",
    fetchCount := 0 }

/-- Claim C7, counterexample.  `get_detailed_schema_info` holds no cache: a
second call re-fetches (the fetch count reaches two) and, over a database
whose answer has changed, returns a different string than the first call. -/
theorem schema_accessor_refetches :
    (get_detailed_schema_info_run db0).1 ≠
      (get_detailed_schema_info_run (get_detailed_schema_info_run db0).2).1 ∧
    (get_detailed_schema_info_run
      (get_detailed_schema_info_run db0).2).2.fetchCount = 2 := by
  refine ⟨?_, rfl⟩
  decide

/-- Claim C7 (corrected): the schema text is computed exactly once, at
module initialization, and stored in the global `schema_info`; reading the
global a second time returns the identical string without any further
fetch.  The accessor function itself is not memoized: calling it again
re-fetches. -/
theorem schema_info_global_stable (db : Db) :
    (read_schema_info (startupSchema db)).1 =
      (read_schema_info (read_schema_info (startupSchema db)).2).1 ∧
    (read_schema_info (startupSchema db)).2 = startupSchema db ∧
    (startupSchema db).db.fetchCount = db.fetchCount + 1 :=
  ⟨rfl, rfl, rfl⟩

/-- Claim C8 (confirmed): a missing required credential terminates startup
with exit code 1, and a missing `DB_URI` does so before any network
interaction (database connection, schema fetch or LLM call) is attempted. -/
theorem startup_credential_check (dbUri apiKey : Option String) :
    ((dbUri = none ∨ apiKey = none) →
      (startup_check dbUri apiKey).exitCode = some 1) ∧
    (dbUri = none →
      (startup_check dbUri apiKey).networkCallsBeforeExit = 0) := by
  constructor
  · rintro (rfl | rfl)
    · simp [startup_check]
    · unfold startup_check
      split
      · rfl
      · simp
  · rintro rfl
    simp [startup_check]

/-- Claim C8, witness: both missing-credential configurations at concrete
values. -/
theorem startup_credential_check_witness :
    (startup_check none (some "key")).exitCode = some 1 ∧
    (startup_check none (some "key")).networkCallsBeforeExit = 0 ∧
    (startup_check (some "postgresql://u@h/db") none).exitCode = some 1 :=
  ⟨(startup_credential_check none (some "key")).1 (Or.inl rfl),
   (startup_credential_check none (some "key")).2 rfl,
   (startup_credential_check (some "postgresql://u@h/db") none).1
     (Or.inr rfl)⟩

/-- Claim C9 (confirmed): `classify "QUERY: show all users"` is the Query
command with question `"show all users"` (case-insensitive match, remainder
after the six-character marker stripped), and `classify "random text"` is
the DirectQuestion command carrying the input unchanged. -/
theorem classify_examples :
    classify "QUERY: show all users" = Command.query "show all users" ∧
    classify "random text" = Command.direct "random text" := by
  decide

/-- Claim C10 (confirmed): when exactly one line of the response is a fence
line (its trimmed content starts with a triple backtick) and at least one
line follows it, the extraction step returns all lines after that marker,
joined and trimmed — not the first-five-lines fallback. -/
theorem extract_sql_unclosed_fence (s f : String) (pre post : List String)
    (hsplit : pySplit s = pre ++ f :: post) (hf : isFence f = true)
    (hpre : ∀ l ∈ pre, isFence l = false)
    (hpost : ∀ l ∈ post, isFence l = false)
    (hne : post ≠ []) :
    extract_sql s = pyStrip (pyJoin post) := by
  unfold extract_sql
  rw [hsplit, collectQueryLines_false_eq,
    dropWhile_nonfence_append pre f post hpre hf]
  simp only []
  rw [takeWhile_nonfence_eq_self post hpost]
  cases post with
  | nil => exact absurd rfl hne
  | cons p ps => simp

/-- Claim C10, witness at a concrete unclosed-fence response. -/
theorem extract_sql_unclosed_fence_witness :
    extract_sql "```sql\nSELECT 1;" = pyStrip (pyJoin ["SELECT 1;"]) :=
  extract_sql_unclosed_fence "```sql\nSELECT 1;" "```sql" [] ["SELECT 1;"]
    (by decide) (by decide) (by decide) (by decide) (by decide)
